import Mathlib

/-!
# Verification of the `ContentTracker` deduplication engine

A shallow embedding of `src/twitter_bot/core/content_tracker.py` (the
content-deduplication core of the AutoTwitter repository) together with
proofs of the specification's testable properties.

Modelling conventions:
* Python `datetime` values are modelled as `Int` seconds; `datetime.now()`
  becomes an explicit `now : Int` parameter threaded through every
  operation, and the ISO-8601 timestamp strings stored by the code are
  modelled as already-parsed integers (states whose timestamps parse).
* Python dicts are modelled as association lists (`List (String × α)`)
  with first-match lookup and value-overwriting insert.
* The tracker object is a `TrackerState`: the in-memory `data` plus the
  persisted `file` snapshot (`none` before any successful save); a
  successful `_save_tracker_data` copies `data` into `file`.
* Floating point similarity arithmetic is idealised over `ℝ`; the
  `sklearn` `TfidfVectorizer(max_features := 1000, stop_words := english,
  ngram_range := (1,2), lowercase := true)` pipeline and
  `cosine_similarity` are embedded term-by-term below; the `ValueError`
  sklearn raises on an empty vocabulary (caught by
  `_calculate_similarity`) is modelled by the empty-vocabulary branch
  returning `0.0`.
* Python's ASCII word characters (`\w` on the texts in question) and
  whitespace class are modelled on ASCII.
-/

namespace ContentTracker

/-! ## Basic string machinery (Python `in`, `lower`, regex classes) -/

/-- Python substring containment `needle in hay` on character lists. -/
def listContains (needle : List Char) : List Char → Bool
  | [] => needle.isEmpty
  | c :: cs => needle.isPrefixOf (c :: cs) || listContains needle cs

/-- Python `sub in s` for strings. -/
def strContains (hay sub : String) : Bool :=
  listContains sub.toList hay.toList

/-- Python `str.lower()` (ASCII). -/
def pyLower (s : String) : String :=
  String.mk (s.toList.map Char.toLower)

/-- Python regex `\s` class (ASCII): space, tab, newline, CR, VT, FF. -/
def pySpace (c : Char) : Bool :=
  c = ' ' || c = '\t' || c = '\n' || c = '\r' || c = Char.ofNat 11 || c = Char.ofNat 12

/-- Python regex `\w` class (ASCII): `[a-zA-Z0-9_]`. -/
def pyWordChar (c : Char) : Bool :=
  ('a' ≤ c && c ≤ 'z') || ('A' ≤ c && c ≤ 'Z') || ('0' ≤ c && c ≤ '9') || c = '_'

/-! ## Content classification (`_classify_content_type`) -/

/-- `self.news_content_types` — News content types (skip similarity check). -/
def newsContentTypes : List String :=
  ["news", "announcement", "breaking", "funding", "launch",
   "acquisition", "merger", "earnings", "ipo"]

/-- `self.similarity_content_types` — content types subject to similarity checking. -/
def similarityContentTypes : List String :=
  ["personal_growth", "advice", "observation", "insight",
   "opinion", "experience", "lesson", "framework"]

/-- `_classify_content_type(content, context)`: keyword scan over the
lowercased concatenation `content + " " + context`; News keywords are
checked first, then Personal keywords, defaulting to `"personal"`. -/
def classifyContentType (content : String) (context : String := "") : String :=
  let contentLower := pyLower (content ++ " " ++ context)
  if newsContentTypes.any (fun k => strContains contentLower k) then "news"
  else if similarityContentTypes.any (fun k => strContains contentLower k) then "personal"
  else "personal"

/-! ## Preprocessing (`_preprocess_content`)

The regex substitutions of `_preprocess_content` are implemented one by
one on character lists, in the order the code applies them. -/

/-- Characters accepted by the URL-body part of the regex
`http[s]?://(?:[a-zA-Z]|[0-9]|[$-_@.&+]|[!*\(\),]|(?:%[0-9a-fA-F][0-9a-fA-F]))+`:
letters, digits, the character range `$`–`_` (which also covers
`@ . & + %` and the digits/uppercase letters), and `! * \ ( ) ,`. -/
def urlBodyChar (c : Char) : Bool :=
  c.isAlpha || c.isDigit || ('$' ≤ c && c ≤ '_') ||
  c = '!' || c = '*' || c = '\\' || c = '(' || c = ')' || c = ','

/-- The literal characters `https://`. -/
def httpsPat : List Char := ['h', 't', 't', 'p', 's', ':', '/', '/']

/-- The literal characters `http://`. -/
def httpPat : List Char := ['h', 't', 't', 'p', ':', '/', '/']

/-- Length of the URL-regex match starting at the head of `l`
(`0` when there is no match; a match needs `http://` or `https://`
followed by at least one URL-body character, consumed greedily). -/
def urlMatchLen (l : List Char) : Nat :=
  if httpsPat.isPrefixOf l then
    let k := ((l.drop 8).takeWhile urlBodyChar).length
    if k = 0 then 0 else 8 + k
  else if httpPat.isPrefixOf l then
    let k := ((l.drop 7).takeWhile urlBodyChar).length
    if k = 0 then 0 else 7 + k
  else 0

/-- `re.sub(r'http[s]?://(...)+', '', content)`, structurally recursive
on a fuel argument so that it evaluates inside the kernel: every scan
step consumes at least one character, so `fuel = l.length` suffices. -/
def stripUrlsFuel : Nat → List Char → List Char
  | 0, l => l
  | _ + 1, [] => []
  | fuel + 1, c :: cs =>
    if urlMatchLen (c :: cs) = 0 then c :: stripUrlsFuel fuel cs
    else stripUrlsFuel fuel ((c :: cs).drop (urlMatchLen (c :: cs)))

/-- Delete every non-overlapping URL match, scanning left to right. -/
def stripUrls (l : List Char) : List Char :=
  stripUrlsFuel l.length l

/-- `re.sub(r'@[a-zA-Z0-9_]+', '', content)` (for `tag = '@'`) and
`re.sub(r'#[a-zA-Z0-9_]+', '', content)`: delete the tag character
together with the nonempty word-character run after it; fuelled like
`stripUrlsFuel`. -/
def stripTaggedFuel (tag : Char) : Nat → List Char → List Char
  | 0, l => l
  | _ + 1, [] => []
  | fuel + 1, c :: cs =>
    if c = tag then
      let k := (cs.takeWhile pyWordChar).length
      if k = 0 then c :: stripTaggedFuel tag fuel cs
      else stripTaggedFuel tag fuel (cs.drop k)
    else c :: stripTaggedFuel tag fuel cs

/-- Delete every `tag`-plus-word-run match, scanning left to right. -/
def stripTagged (tag : Char) (l : List Char) : List Char :=
  stripTaggedFuel tag l.length l

/-- `re.sub(r'\s+', ' ', content)`: collapse every whitespace run to a
single space. -/
def collapseWs : List Char → List Char
  | [] => []
  | [c] => if pySpace c then [' '] else [c]
  | c :: d :: rest =>
    if pySpace c && pySpace d then collapseWs (d :: rest)
    else if pySpace c then ' ' :: collapseWs (d :: rest)
    else c :: collapseWs (d :: rest)

/-- `re.sub(r'[^\w\s]', ' ', content)`: replace every character that is
neither a word character nor whitespace by a space. -/
def blankNonWord (l : List Char) : List Char :=
  l.map (fun c => if pyWordChar c || pySpace c then c else ' ')

/-- Python `str.strip()`: drop leading and trailing whitespace. -/
def pyStrip (l : List Char) : List Char :=
  ((l.dropWhile pySpace).reverse.dropWhile pySpace).reverse

/-- `_preprocess_content`: strip URLs, mentions and hashtags, collapse
whitespace, blank special characters, then `strip().lower()`. -/
def preprocessContent (content : String) : String :=
  String.mk
    (((pyStrip (blankNonWord (collapseWs
        (stripTagged '#' (stripTagged '@' (stripUrls content.toList)))))).map Char.toLower))

/-! ## The sklearn vectorizer pipeline (`TfidfVectorizer` + `cosine_similarity`)

`_calculate_similarity` hands the preprocessed corpus to
`TfidfVectorizer(max_features=1000, stop_words='english',
ngram_range=(1,2), lowercase=True)` and compares the candidate row with
every other row by cosine similarity.  The vectorizer's analyzer is
embedded below: lowercase, extract tokens by the default pattern
`\b\w\w+\b` (maximal word-character runs of length ≥ 2), drop English
stop words, then emit unigrams and bigrams. -/

/-- sklearn's frozen `ENGLISH_STOP_WORDS` list. -/
def englishStopWords : List String :=
  ["a", "about", "above", "across", "after", "afterwards", "again", "against",
   "all", "almost", "alone", "along", "already", "also", "although", "always",
   "am", "among", "amongst", "amoungst", "amount", "an", "and", "another",
   "any", "anyhow", "anyone", "anything", "anyway", "anywhere", "are", "around",
   "as", "at", "back", "be", "became", "because", "become", "becomes",
   "becoming", "been", "before", "beforehand", "behind", "being", "below",
   "beside", "besides", "between", "beyond", "bill", "both", "bottom", "but",
   "by", "call", "can", "cannot", "cant", "co", "con", "could", "couldnt",
   "cry", "de", "describe", "detail", "do", "done", "down", "due", "during",
   "each", "eg", "eight", "either", "eleven", "else", "elsewhere", "empty",
   "enough", "etc", "even", "ever", "every", "everyone", "everything",
   "everywhere", "except", "few", "fifteen", "fifty", "fill", "find", "fire",
   "first", "five", "for", "former", "formerly", "forty", "found", "four",
   "from", "front", "full", "further", "get", "give", "go", "had", "has",
   "hasnt", "have", "he", "hence", "her", "here", "hereafter", "hereby",
   "herein", "hereupon", "hers", "herself", "him", "himself", "his", "how",
   "however", "hundred", "i", "ie", "if", "in", "inc", "indeed", "interest",
   "into", "is", "it", "its", "itself", "keep", "last", "latter", "latterly",
   "least", "less", "ltd", "made", "many", "may", "me", "meanwhile", "might",
   "mill", "mine", "more", "moreover", "most", "mostly", "move", "much",
   "must", "my", "myself", "name", "namely", "neither", "never",
   "nevertheless", "next", "nine", "no", "nobody", "none", "noone", "nor",
   "not", "nothing", "now", "nowhere", "of", "off", "often", "on", "once",
   "one", "only", "onto", "or", "other", "others", "otherwise", "our", "ours",
   "ourselves", "out", "over", "own", "part", "per", "perhaps", "please",
   "put", "rather", "re", "same", "see", "seem", "seemed", "seeming", "seems",
   "serious", "several", "she", "should", "show", "side", "since", "sincere",
   "six", "sixty", "so", "some", "somehow", "someone", "something",
   "sometime", "sometimes", "somewhere", "still", "such", "system", "take",
   "ten", "than", "that", "the", "their", "them", "themselves", "then",
   "thence", "there", "thereafter", "thereby", "therefore", "therein",
   "thereupon", "these", "they", "thick", "thin", "third", "this", "those",
   "though", "three", "through", "throughout", "thru", "thus", "to",
   "together", "too", "top", "toward", "towards", "twelve", "twenty", "two",
   "un", "under", "until", "up", "upon", "us", "very", "via", "was", "we",
   "well", "were", "what", "whatever", "when", "whence", "whenever", "where",
   "whereafter", "whereas", "whereby", "wherein", "whereupon", "wherever",
   "whether", "which", "while", "whither", "who", "whoever", "whole", "whom",
   "whose", "why", "will", "with", "within", "without", "would", "yet", "you",
   "your", "yours", "yourself", "yourselves"]

/-- Maximal word-character runs of a character list (the accumulator
holds the current run, reversed). -/
def wordRunsAux : List Char → List Char → List (List Char)
  | [], acc => if acc.isEmpty then [] else [acc.reverse]
  | c :: cs, acc =>
    if pyWordChar c then wordRunsAux cs (c :: acc)
    else if acc.isEmpty then wordRunsAux cs []
    else acc.reverse :: wordRunsAux cs []

/-- The vectorizer's tokenizer: lowercase, then the default token pattern
`\b\w\w+\b` — maximal word-character runs of length at least 2. -/
def sklearnTokenize (doc : String) : List String :=
  ((wordRunsAux doc.toList []).filter (fun r => 2 ≤ r.length)).map
    (fun r => String.mk (r.map Char.toLower))

/-- Tokens of a document surviving English stop-word removal. -/
def docTerms (doc : String) : List String :=
  (sklearnTokenize doc).filter (fun t => !englishStopWords.contains t)

/-- Adjacent-pair bigrams, space-joined, as sklearn's `_word_ngrams`
builds them from the stop-word-filtered token sequence. -/
def joinBigrams : List String → List String
  | a :: b :: rest => (a ++ " " ++ b) :: joinBigrams (b :: rest)
  | _ => []

/-- A document's features for `ngram_range = (1, 2)`: unigrams followed
by bigrams. -/
def docFeatures (doc : String) : List String :=
  docTerms doc ++ joinBigrams (docTerms doc)

/-- Total number of occurrences of feature `f` across the corpus
(the quantity `max_features` selection orders by). -/
def corpusFeatureCount (docs : List String) (f : String) : Nat :=
  (docs.map (fun d => (docFeatures d).count f)).sum

/-- Stable descending insertion by key. -/
def insertByKeyDesc (key : String → Nat) (x : String) : List String → List String
  | [] => [x]
  | y :: ys => if key y < key x then x :: y :: ys else y :: insertByKeyDesc key x ys

/-- Stable sort, descending by key. -/
def sortByKeyDesc (key : String → Nat) : List String → List String
  | [] => []
  | x :: xs => insertByKeyDesc key x (sortByKeyDesc key xs)

/-- The fitted vocabulary: distinct corpus features, truncated to the
1000 most frequent when `max_features = 1000` binds (sklearn's column
order — alphabetical — does not affect cosine values and is not
modelled; ties in the frequency cut are kept in a stable order). -/
def corpusVocab (docs : List String) : List String :=
  let allFeatures := (docs.map docFeatures).flatten.eraseDups
  if allFeatures.length ≤ 1000 then allFeatures
  else (sortByKeyDesc (corpusFeatureCount docs) allFeatures).take 1000

/-- Document frequency of feature `f`. -/
def docFreq (docs : List String) (f : String) : Nat :=
  docs.countP (fun d => decide (f ∈ docFeatures d))

/-- Smoothed inverse document frequency, sklearn's default
`smooth_idf = True`: `ln((1 + n) / (1 + df)) + 1`. -/
noncomputable def idf (docs : List String) (f : String) : ℝ :=
  Real.log ((1 + (docs.length : ℝ)) / (1 + (docFreq docs f : ℝ))) + 1

/-- Raw term count of feature `f` in a document (sklearn's default
`sublinear_tf = False`). -/
def termCount (doc f : String) : Nat :=
  (docFeatures doc).count f

/-- The document's TF-IDF row over the fitted vocabulary.  sklearn
L2-normalizes each row, and `cosine_similarity` normalizes again;
cosine values are invariant under the first normalization, so the row
is kept unnormalized and the normalization lives in `cosineSim`. -/
noncomputable def tfidfRow (docs vocab : List String) (doc : String) : List ℝ :=
  vocab.map (fun f => (termCount doc f : ℝ) * idf docs f)

/-- Dot product of two rows. -/
noncomputable def dotList (u v : List ℝ) : ℝ :=
  (List.zipWith (fun a b => a * b) u v).sum

/-- Euclidean norm of a row. -/
noncomputable def l2norm (u : List ℝ) : ℝ :=
  Real.sqrt (dotList u u)

/-- `sklearn.metrics.pairwise.cosine_similarity` of two rows; a zero
row yields similarity `0`. -/
noncomputable def cosineSim (u v : List ℝ) : ℝ :=
  if l2norm u = 0 ∨ l2norm v = 0 then 0
  else dotList u v / (l2norm u * l2norm v)

/-- `numpy.max` over the (nonempty) similarity row; `0` on the empty
list, matching the code's `if similarities.size > 0 else 0.0` guard. -/
noncomputable def listMax : List ℝ → ℝ
  | [] => 0
  | [x] => x
  | x :: y :: rest => max x (listMax (y :: rest))

/-- `self.similarity_threshold = 0.15`. -/
def similarityThreshold : ℚ := 0.15

/-- `_calculate_similarity(new_content, existing_contents)`: maximum
cosine similarity of the preprocessed candidate against the
preprocessed existing contents.  The vectorizer's `ValueError` on an
empty vocabulary — caught by the code's `except` clause, which logs and
returns `0.0` — is the empty-vocabulary branch. -/
noncomputable def calculateSimilarity (newContent : String) (existingContents : List String) : ℝ :=
  if existingContents.isEmpty then 0
  else
    let newContentClean := preprocessContent newContent
    let existingContentsClean := existingContents.map preprocessContent
    let allContent := newContentClean :: existingContentsClean
    let vocab := corpusVocab allContent
    if vocab.isEmpty then 0
    else
      listMax (existingContentsClean.map (fun d =>
        cosineSim (tfidfRow allContent vocab newContentClean)
                  (tfidfRow allContent vocab d)))

/-! ## Data model (`self.data` and the backing file) -/

/-- One entry of `posted_content` / `email_content`, as built by
`mark_content_posted` / `mark_email_content_generated`. -/
structure ContentEntry where
  content : String
  content_type : String
  original_type : String
  context : String
  timestamp : Int
deriving DecidableEq

/-- One value of the `replied_tweets` dict. -/
structure ReplyEntry where
  reply_id : String
  timestamp : Int
deriving DecidableEq

/-- The five collections of `self.data`. -/
structure TrackerData where
  replied_tweets : List (String × ReplyEntry)
  used_rss_posts : List (String × Int)
  email_content : List ContentEntry
  posted_content : List ContentEntry
  content_themes : List (String × Int)
deriving DecidableEq

/-- The freshly initialized store (all five collections empty). -/
def emptyTrackerData : TrackerData :=
  { replied_tweets := [], used_rss_posts := [], email_content := [],
    posted_content := [], content_themes := [] }

/-- A tracker instance: the in-memory `self.data` plus the persisted
file contents (`none` while nothing has been written). -/
structure TrackerState where
  data : TrackerData
  file : Option TrackerData
deriving DecidableEq

/-! ## Python dict operations on association lists -/

/-- First-match lookup (Python dict key access). -/
def dictLookup {α : Type} : List (String × α) → String → Option α
  | [], _ => none
  | (k, v) :: rest, key => if k = key then some v else dictLookup rest key

/-- Python `key in dict`. -/
def dictContains {α : Type} (l : List (String × α)) (key : String) : Bool :=
  (dictLookup l key).isSome

/-- Python `dict[key] = v`: overwrite the value when the key is present,
otherwise append the pair. -/
def dictInsert {α : Type} (key : String) (v : α) (l : List (String × α)) : List (String × α) :=
  if l.any (fun kv => kv.1 = key) then
    l.map (fun kv => if kv.1 = key then (key, v) else kv)
  else l ++ [(key, v)]

/-! ## Loading and saving (`_load_tracker_data`, `_save_tracker_data`) -/

/-- What the backing file may hold when the tracker starts. -/
inductive LoadSource where
  | absent
  | unreadable
  | malformed
  | wellFormed (d : TrackerData)

/-- The body of `_load_tracker_data`'s `try` block: an existing file is
parsed (raising on unreadable or malformed contents), an absent file
yields the freshly initialized store. -/
def readTrackerFile : LoadSource → Except String TrackerData
  | .absent => .ok emptyTrackerData
  | .unreadable => .error "read failed"
  | .malformed => .error "parse failed"
  | .wellFormed d => .ok d

/-- `_load_tracker_data`: any raised error is caught, logged and
replaced by the freshly initialized empty store; the caller never sees
an exception. -/
def loadTrackerData (src : LoadSource) : TrackerData :=
  match readTrackerFile src with
  | .ok d => d
  | .error _ => emptyTrackerData

/-- `_save_tracker_data`: persist the in-memory data (the model takes
the success path; an I/O failure is caught and logged by the code and
leaves the file as it was). -/
def saveTrackerData (s : TrackerState) : TrackerState :=
  { s with file := some s.data }

/-! ## Retention pruning (`_clean_old_entries`) -/

/-- Retention period of `replied_tweets`: 30 days, in seconds. -/
def repliedTweetsRetention : Int := 30 * 86400

/-- Retention period of `used_rss_posts`: 7 days, in seconds. -/
def usedRssPostsRetention : Int := 7 * 86400

/-- Retention period of `email_content`: 14 days, in seconds. -/
def emailContentRetention : Int := 14 * 86400

/-- Retention period of `posted_content`: 30 days, in seconds. -/
def postedContentRetention : Int := 30 * 86400

/-- Retention period of `content_themes`: 6 hours, in seconds. -/
def contentThemesRetention : Int := 6 * 3600

/-- `_clean_old_entries`: the list collections (`email_content`,
`posted_content`) keep exactly the entries with `timestamp >= now -
retention`, and the string-valued dict collections (`used_rss_posts`,
`content_themes`) delete the keys with `timestamp < cutoff`
(timestamps modelled as already parsed).  The `replied_tweets` values,
however, are `{reply_id, timestamp}` dicts: the loop hands the whole
value dict to `datetime.fromisoformat`, which raises `TypeError`, the
`except (ValueError, TypeError)` clause appends the key to `old_keys`,
and so every `replied_tweets` entry is deleted on each prune pass,
regardless of age. -/
def cleanOldEntries (now : Int) (d : TrackerData) : TrackerData :=
  { replied_tweets := []
    used_rss_posts :=
      d.used_rss_posts.filter (fun kv => now - usedRssPostsRetention ≤ kv.2)
    email_content :=
      d.email_content.filter (fun e => now - emailContentRetention ≤ e.timestamp)
    posted_content :=
      d.posted_content.filter (fun e => now - postedContentRetention ≤ e.timestamp)
    content_themes :=
      d.content_themes.filter (fun kv => now - contentThemesRetention ≤ kv.2) }

/-! ## Decimal rendering (Python `f"{n}"` for the RSS hash bucket) -/

/-- Decimal digits of a natural number (little-endian `Nat.digits`,
reversed and rendered; `0` prints `"0"`). -/
def natDecimalRepr (n : Nat) : List Char :=
  if n = 0 then ['0'] else ((Nat.digits 10 n).reverse.map Nat.digitChar)

/-- Python `f"{m}"` for the nonnegative bucket value `m`. -/
def decimalRepr (m : Int) : String :=
  String.mk (natDecimalRepr m.toNat)

/-! ## The tracker operations

Each Python method becomes a function from (an explicit `now`,) its
arguments and the current `TrackerState` to its return value paired
with the successor state. -/

open Classical in
/-- `has_posted_similar_content(content, content_type, context)`:
prune, classify, bypass for News, otherwise compare against the live
`posted_content` texts by maximum cosine similarity. -/
noncomputable def hasPostedSimilarContent (now : Int)
    (content : String) (content_type : String := "") (context : String := "")
    (s : TrackerState) : Bool × TrackerState :=
  let s := { s with data := cleanOldEntries now s.data }
  if classifyContentType content context = "news" then (false, s)
  else
    let existingContents := s.data.posted_content.map (fun item => item.content)
    if existingContents.isEmpty then (false, s)
    else
      (decide ((similarityThreshold : ℝ) < calculateSimilarity content existingContents), s)

/-- `mark_content_posted(content, content_type, context)`: append the
classified entry to `posted_content` and persist. -/
def markContentPosted (now : Int)
    (content : String) (content_type : String := "") (context : String := "")
    (s : TrackerState) : TrackerState :=
  let entry : ContentEntry :=
    { content := content
      content_type := classifyContentType content context
      original_type := content_type
      context := context
      timestamp := now }
  saveTrackerData { s with data :=
    { s.data with posted_content := s.data.posted_content ++ [entry] } }

open Classical in
/-- `has_generated_similar_email(content, content_type, context)`: the
email-side twin of `hasPostedSimilarContent`, over `email_content`. -/
noncomputable def hasGeneratedSimilarEmail (now : Int)
    (content : String) (content_type : String := "") (context : String := "")
    (s : TrackerState) : Bool × TrackerState :=
  let s := { s with data := cleanOldEntries now s.data }
  if classifyContentType content context = "news" then (false, s)
  else
    let existingContents := s.data.email_content.map (fun item => item.content)
    if existingContents.isEmpty then (false, s)
    else
      (decide ((similarityThreshold : ℝ) < calculateSimilarity content existingContents), s)

/-- `mark_email_content_generated(content, content_type, context)`. -/
def markEmailContentGenerated (now : Int)
    (content : String) (content_type : String := "") (context : String := "")
    (s : TrackerState) : TrackerState :=
  let entry : ContentEntry :=
    { content := content
      content_type := classifyContentType content context
      original_type := content_type
      context := context
      timestamp := now }
  saveTrackerData { s with data :=
    { s.data with email_content := s.data.email_content ++ [entry] } }

/-- `mark_tweet_replied(tweet_id, reply_id)`: upsert into
`replied_tweets` with the current timestamp and persist.  (No pruning
happens here.) -/
def markTweetReplied (now : Int) (tweet_id : String) (reply_id : String := "")
    (s : TrackerState) : TrackerState :=
  saveTrackerData { s with data :=
    { s.data with replied_tweets :=
        dictInsert tweet_id ⟨reply_id, now⟩ s.data.replied_tweets } }

/-- `has_replied_to_tweet(tweet_id)`: a bare membership test against
`replied_tweets` — the method neither prunes nor writes. -/
def hasRepliedToTweet (tweet_id : String) (s : TrackerState) : Bool × TrackerState :=
  (dictContains s.data.replied_tweets tweet_id, s)

/-- The RSS fingerprint `f"{username}:{hash(content) % 10000000}"`.
Python's salted string `hash` is a parameter `pyHash`; the bucket
`pyHash content % 10000000` is a nonnegative integer below 10 000 000
rendered in decimal. -/
def rssFingerprint (pyHash : String → Int) (username content : String) : String :=
  username ++ ":" ++ decimalRepr (pyHash content % 10000000)

/-- `has_used_rss_post(username, content)`: prune, then test the
fingerprint's membership in `used_rss_posts`. -/
def hasUsedRssPost (pyHash : String → Int) (now : Int) (username content : String)
    (s : TrackerState) : Bool × TrackerState :=
  let s := { s with data := cleanOldEntries now s.data }
  (dictContains s.data.used_rss_posts (rssFingerprint pyHash username content), s)

/-- `mark_rss_post_used(username, content)`: upsert the fingerprint
with the current timestamp and persist.  (No pruning happens here.) -/
def markRssPostUsed (pyHash : String → Int) (now : Int) (username content : String)
    (s : TrackerState) : TrackerState :=
  saveTrackerData { s with data :=
    { s.data with used_rss_posts :=
        dictInsert (rssFingerprint pyHash username content) now s.data.used_rss_posts } }

/-- `has_used_theme_recently(theme, timeframe_hours)`: prune, then, when
the theme is present, compare the elapsed time against the
caller-specified window `timeframe_hours * 3600` seconds (strictly). -/
def hasUsedThemeRecently (now : Int) (theme : String) (timeframe_hours : Int := 6)
    (s : TrackerState) : Bool × TrackerState :=
  let s := { s with data := cleanOldEntries now s.data }
  match dictLookup s.data.content_themes theme with
  | some themeTime => (decide (now - themeTime < timeframe_hours * 3600), s)
  | none => (false, s)

/-- `mark_theme_used(theme)`: upsert the current timestamp and persist.
(No pruning happens here.) -/
def markThemeUsed (now : Int) (theme : String) (s : TrackerState) : TrackerState :=
  saveTrackerData { s with data :=
    { s.data with content_themes := dictInsert theme now s.data.content_themes } }

/-- `get_statistics()`: prune, then report the five collection sizes
and the active similarity threshold. -/
def getStatistics (now : Int) (s : TrackerState) :
    (Nat × Nat × Nat × Nat × Nat × ℚ) × TrackerState :=
  let s := { s with data := cleanOldEntries now s.data }
  ((s.data.replied_tweets.length, s.data.used_rss_posts.length,
    s.data.email_content.length, s.data.posted_content.length,
    s.data.content_themes.length, similarityThreshold), s)

/-- The corpus `hasPostedSimilarContent` hands to the vectorizer: the
preprocessed candidate followed by the preprocessed live
`posted_content` texts. -/
def postedSimilarityCorpus (now : Int) (content : String) (s : TrackerState) : List String :=
  preprocessContent content ::
    ((cleanOldEntries now s.data).posted_content.map (fun item => item.content)).map
      preprocessContent

/-! ## Helper lemmas: association lists -/

theorem dictLookup_eq_none {α : Type} (l : List (String × α)) (key : String)
    (h : ∀ kv ∈ l, kv.1 ≠ key) : dictLookup l key = none := by
  induction l with
  | nil => rfl
  | cons kv rest ih =>
    have hk : kv.1 ≠ key := h kv (List.mem_cons_self kv rest)
    obtain ⟨k, v⟩ := kv
    simp only [dictLookup, if_neg hk]
    exact ih fun kv hkv => h kv (List.mem_cons_of_mem _ hkv)

theorem dictLookup_of_all_eq {α : Type} (l : List (String × α)) (key : String) (v : α)
    (hall : ∀ kv ∈ l, kv.1 = key → kv = (key, v))
    (hex : ∃ kv ∈ l, kv.1 = key) : dictLookup l key = some v := by
  induction l with
  | nil => simp at hex
  | cons kv rest ih =>
    obtain ⟨k, w⟩ := kv
    by_cases hk : k = key
    · have := hall (k, w) (List.mem_cons_self _ _) hk
      simp only [dictLookup, if_pos hk]
      exact congrArg some (congrArg Prod.snd this)
    · simp only [dictLookup, if_neg hk]
      refine ih (fun kv hkv => hall kv (List.mem_cons_of_mem _ hkv)) ?_
      obtain ⟨kv, hkv, hkey⟩ := hex
      rcases List.mem_cons.mp hkv with rfl | hmem
      · exact absurd hkey hk
      · exact ⟨kv, hmem, hkey⟩

theorem mem_key_dictInsert {α : Type} (l : List (String × α)) (key : String) (v : α) :
    ∀ kv ∈ dictInsert key v l, kv.1 = key → kv = (key, v) := by
  intro kv hkv hkey
  unfold dictInsert at hkv
  by_cases hany : l.any (fun kv => kv.1 = key)
  · rw [if_pos hany] at hkv
    obtain ⟨kv', _, hg⟩ := List.mem_map.mp hkv
    by_cases hk' : kv'.1 = key
    · rw [if_pos hk'] at hg
      exact hg.symm
    · rw [if_neg hk'] at hg
      exact absurd (hg ▸ hkey) hk'
  · rw [if_neg hany] at hkv
    rcases List.mem_append.mp hkv with hmem | hmem
    · exact absurd (List.any_eq_true.mpr ⟨kv, hmem, by simpa using hkey⟩) hany
    · simpa using hmem

theorem exists_key_dictInsert {α : Type} (l : List (String × α)) (key : String) (v : α) :
    (key, v) ∈ dictInsert key v l := by
  unfold dictInsert
  by_cases hany : l.any (fun kv => kv.1 = key)
  · rw [if_pos hany]
    obtain ⟨kv, hkv, hkey⟩ := List.any_eq_true.mp hany
    refine List.mem_map.mpr ⟨kv, hkv, ?_⟩
    rw [if_pos (by simpa using hkey)]
  · rw [if_neg hany]
    exact List.mem_append.mpr (Or.inr (List.mem_singleton.mpr rfl))

theorem dictLookup_filter_dictInsert {α : Type} (p : String × α → Bool)
    (l : List (String × α)) (key : String) (v : α) :
    dictLookup ((dictInsert key v l).filter p) key =
      if p (key, v) = true then some v else none := by
  by_cases hp : p (key, v) = true
  · rw [if_pos hp]
    refine dictLookup_of_all_eq _ _ _ ?_ ?_
    · intro kv hkv hkey
      exact mem_key_dictInsert l key v kv (List.mem_filter.mp hkv).1 hkey
    · exact ⟨(key, v), List.mem_filter.mpr ⟨exists_key_dictInsert l key v, hp⟩, rfl⟩
  · rw [if_neg hp]
    refine dictLookup_eq_none _ _ ?_
    intro kv hkv hkey
    obtain ⟨hmem, hpkv⟩ := List.mem_filter.mp hkv
    have := mem_key_dictInsert l key v kv hmem hkey
    rw [this] at hpkv
    exact hp hpkv

theorem dictContains_filter_false {α : Type} (l : List (String × α)) (key : String)
    (p : String × α → Bool) (h : ∀ kv ∈ l, kv.1 = key → p kv = false) :
    dictContains (l.filter p) key = false := by
  have : dictLookup (l.filter p) key = none := by
    refine dictLookup_eq_none _ _ ?_
    intro kv hkv hkey
    obtain ⟨hmem, hpkv⟩ := List.mem_filter.mp hkv
    rw [h kv hmem hkey] at hpkv
    exact Bool.false_ne_true hpkv
  simp [dictContains, this]

/-! ## Helper lemmas: the cosine-similarity core -/

theorem dotList_self_nonneg (v : List ℝ) : 0 ≤ dotList v v := by
  induction v with
  | nil => simp [dotList]
  | cons x xs ih =>
    simp only [dotList, List.zipWith_cons_cons, List.sum_cons] at ih ⊢
    have := mul_self_nonneg x
    linarith

theorem dotList_self_pos (v : List ℝ) (x : ℝ) (hx : x ∈ v) (hx0 : x ≠ 0) :
    0 < dotList v v := by
  induction v with
  | nil => simp at hx
  | cons y ys ih =>
    simp only [dotList, List.zipWith_cons_cons, List.sum_cons]
    have hys : (0 : ℝ) ≤ dotList ys ys := dotList_self_nonneg ys
    rcases List.mem_cons.mp hx with rfl | hmem
    · have : 0 < x * x := mul_self_pos.mpr hx0
      simp only [dotList] at hys
      linarith
    · have : 0 < dotList ys ys := ih hmem
      have hy := mul_self_nonneg y
      simp only [dotList] at this
      linarith

theorem cosineSim_self (v : List ℝ) (h : 0 < dotList v v) : cosineSim v v = 1 := by
  have hnorm : 0 < l2norm v := Real.sqrt_pos.mpr h
  unfold cosineSim
  rw [if_neg (by push_neg; exact ⟨hnorm.ne', hnorm.ne'⟩)]
  unfold l2norm
  rw [Real.mul_self_sqrt h.le]
  exact div_self h.ne'

theorem le_listMax (l : List ℝ) (a : ℝ) (ha : a ∈ l) : a ≤ listMax l := by
  induction l with
  | nil => simp at ha
  | cons x xs ih =>
    cases xs with
    | nil =>
      simp only [List.mem_singleton] at ha
      simp [listMax, ha]
    | cons y ys =>
      simp only [listMax]
      rcases List.mem_cons.mp ha with rfl | hmem
      · exact le_max_left _ _
      · exact le_trans (ih hmem) (le_max_right _ _)

theorem one_le_idf (docs : List String) (f : String) : 1 ≤ idf docs f := by
  unfold idf
  have hdf : docFreq docs f ≤ docs.length := List.countP_le_length _
  have h1 : (0 : ℝ) < 1 + (docFreq docs f : ℝ) := by positivity
  have h2 : (1 : ℝ) ≤ (1 + (docs.length : ℝ)) / (1 + (docFreq docs f : ℝ)) := by
    rw [one_le_div h1]
    have : (docFreq docs f : ℝ) ≤ (docs.length : ℝ) := Nat.cast_le.mpr hdf
    linarith
  have := Real.log_nonneg h2
  linarith

theorem one_le_calculateSimilarity (content : String) (existing : List String)
    (hmem : content ∈ existing)
    (hf : ∃ f, f ∈ docFeatures (preprocessContent content) ∧
        f ∈ corpusVocab (preprocessContent content :: existing.map preprocessContent)) :
    1 ≤ calculateSimilarity content existing := by
  obtain ⟨f, hfd, hfv⟩ := hf
  have hne : existing ≠ [] := by rintro rfl; simp at hmem
  have hisEmpty : existing.isEmpty = false := by
    cases existing with
    | nil => exact absurd rfl hne
    | cons a l => rfl
  unfold calculateSimilarity
  rw [hisEmpty]
  simp only [Bool.false_eq_true, if_false]
  have hvne : (corpusVocab (preprocessContent content ::
      existing.map preprocessContent)).isEmpty = false := by
    rcases hv : corpusVocab (preprocessContent content :: existing.map preprocessContent) with
      _ | ⟨a, l⟩
    · rw [hv] at hfv; simp at hfv
    · rfl
  rw [hvne]
  simp only [Bool.false_eq_true, if_false]
  set pc := preprocessContent content with hpc
  set allContent := pc :: existing.map preprocessContent with hall
  set vocab := corpusVocab allContent with hvocab
  have hrowpos : 0 < dotList (tfidfRow allContent vocab pc) (tfidfRow allContent vocab pc) := by
    refine dotList_self_pos _ ((termCount pc f : ℝ) * idf allContent f) ?_ ?_
    · exact List.mem_map_of_mem _ hfv
    · have h1 : 0 < termCount pc f := by
        have := List.count_pos_iff.mpr hfd
        simpa [termCount] using this
      have h2 : (1 : ℝ) ≤ idf allContent f := one_le_idf allContent f
      have : (0 : ℝ) < (termCount pc f : ℝ) := by exact_mod_cast h1
      positivity
  have hcos : cosineSim (tfidfRow allContent vocab pc) (tfidfRow allContent vocab pc) = 1 :=
    cosineSim_self _ hrowpos
  have hsimMem : cosineSim (tfidfRow allContent vocab pc) (tfidfRow allContent vocab pc) ∈
      (existing.map preprocessContent).map (fun d =>
        cosineSim (tfidfRow allContent vocab pc) (tfidfRow allContent vocab d)) :=
    List.mem_map_of_mem _ (List.mem_map_of_mem _ hmem)
  calc (1 : ℝ) = cosineSim (tfidfRow allContent vocab pc) (tfidfRow allContent vocab pc) :=
        hcos.symm
    _ ≤ _ := le_listMax _ _ hsimMem

theorem calculateSimilarity_eq_zero_of_vocab_empty (content : String)
    (existing : List String)
    (hv : corpusVocab (preprocessContent content :: existing.map preprocessContent) = []) :
    calculateSimilarity content existing = 0 := by
  unfold calculateSimilarity
  cases hex : existing.isEmpty with
  | true => simp
  | false =>
    simp only [Bool.false_eq_true, if_false]
    rw [hv]
    simp

theorem hasPostedSimilarContent_false_of_vocab_empty (now : Int)
    (content content_type context : String) (s : TrackerState)
    (hv : corpusVocab (postedSimilarityCorpus now content s) = []) :
    (hasPostedSimilarContent now content content_type context s).1 = false := by
  unfold hasPostedSimilarContent
  by_cases hclass : classifyContentType content context = "news"
  · simp [hclass]
  · rw [if_neg hclass]
    cases hex : ((cleanOldEntries now s.data).posted_content.map
        (fun item => item.content)).isEmpty with
    | true => simp [hex]
    | false =>
      simp only [hex, Bool.false_eq_true, if_false]
      have hz : calculateSimilarity content
          ((cleanOldEntries now s.data).posted_content.map (fun item => item.content)) = 0 :=
        calculateSimilarity_eq_zero_of_vocab_empty _ _ hv
      rw [hz]
      refine decide_eq_false ?_
      rw [not_lt]
      have : ((similarityThreshold : ℚ) : ℝ) = 0.15 := by norm_num [similarityThreshold]
      rw [this]
      norm_num

/-! ## The claims -/

/-- C1 (code bug): the 30-day retention for `replied_tweets` is the
code's own declared intent (its `retention_periods` mapping and the
"remove old keys" comment), but the prune loop hands the
`{reply_id, timestamp}` value dict to `datetime.fromisoformat`, the
caught `TypeError` marks every key old, and every `replied_tweets`
entry is deleted regardless of age.  At the failing input — a reply
recorded at the very instant of the prune, so of age 0 and well inside
the window — the entry is wiped, while equally fresh entries of the
four other collections survive their windows as the claim states. -/
theorem replied_prune_wipes_fresh :
    ((1000 : Int) - repliedTweetsRetention ≤ 1000) ∧
    (cleanOldEntries 1000
      ⟨[("123", ⟨"", 1000⟩)], [("f", 1000)], [⟨"e", "personal", "", "", 1000⟩],
        [⟨"p", "personal", "", "", 1000⟩], [("t", 1000)]⟩).replied_tweets = [] ∧
    (cleanOldEntries 1000
      ⟨[("123", ⟨"", 1000⟩)], [("f", 1000)], [⟨"e", "personal", "", "", 1000⟩],
        [⟨"p", "personal", "", "", 1000⟩], [("t", 1000)]⟩).used_rss_posts =
      [("f", 1000)] ∧
    (cleanOldEntries 1000
      ⟨[("123", ⟨"", 1000⟩)], [("f", 1000)], [⟨"e", "personal", "", "", 1000⟩],
        [⟨"p", "personal", "", "", 1000⟩], [("t", 1000)]⟩).email_content =
      [⟨"e", "personal", "", "", 1000⟩] ∧
    (cleanOldEntries 1000
      ⟨[("123", ⟨"", 1000⟩)], [("f", 1000)], [⟨"e", "personal", "", "", 1000⟩],
        [⟨"p", "personal", "", "", 1000⟩], [("t", 1000)]⟩).posted_content =
      [⟨"p", "personal", "", "", 1000⟩] ∧
    (cleanOldEntries 1000
      ⟨[("123", ⟨"", 1000⟩)], [("f", 1000)], [⟨"e", "personal", "", "", 1000⟩],
        [⟨"p", "personal", "", "", 1000⟩], [("t", 1000)]⟩).content_themes =
      [("t", 1000)] := by
  refine ⟨by decide, rfl, by decide, by decide, by decide, by decide⟩

/-- C2: whenever the lowercased concatenation of content and context
contains a News keyword, `has_posted_similar_content` and
`has_generated_similar_email` return `false` for every tracker state —
the News classification short-circuits before any similarity
computation. -/
theorem news_bypass (now nowE : Int) (content content_type context : String)
    (s sE : TrackerState)
    (h : newsContentTypes.any
      (fun k => strContains (pyLower (content ++ " " ++ context)) k) = true) :
    (hasPostedSimilarContent now content content_type context s).1 = false ∧
    (hasGeneratedSimilarEmail nowE content content_type context sE).1 = false := by
  have hclass : classifyContentType content context = "news" := by
    simp [classifyContentType, h]
  constructor
  · simp [hasPostedSimilarContent, hclass]
  · simp [hasGeneratedSimilarEmail, hclass]

/-- C2 witness: a concrete News-keyword text returns `false` against a
fresh tracker. -/
theorem news_bypass_witness :
    (newsContentTypes.any
      (fun k => strContains (pyLower ("Breaking update" ++ " " ++ "")) k) = true) ∧
    (hasPostedSimilarContent 0 "Breaking update" "" "" ⟨emptyTrackerData, none⟩).1 = false ∧
    (hasGeneratedSimilarEmail 0 "Breaking update" "" "" ⟨emptyTrackerData, none⟩).1 = false :=
  ⟨by decide,
   (news_bypass 0 0 "Breaking update" "" "" ⟨emptyTrackerData, none⟩ ⟨emptyTrackerData, none⟩
      (by decide)).1,
   (news_bypass 0 0 "Breaking update" "" "" ⟨emptyTrackerData, none⟩ ⟨emptyTrackerData, none⟩
      (by decide)).2⟩

/-- C4: classification is a pure function of content and context: a
News keyword forces `"news"` even when Personal keywords also occur
(News is checked first); otherwise a Personal keyword gives
`"personal"`; and with no keyword at all the default is `"personal"`. -/
theorem classification_priority (content context : String) :
    (newsContentTypes.any
        (fun k => strContains (pyLower (content ++ " " ++ context)) k) = true →
      classifyContentType content context = "news") ∧
    (newsContentTypes.any
        (fun k => strContains (pyLower (content ++ " " ++ context)) k) = false →
      similarityContentTypes.any
        (fun k => strContains (pyLower (content ++ " " ++ context)) k) = true →
      classifyContentType content context = "personal") ∧
    (newsContentTypes.any
        (fun k => strContains (pyLower (content ++ " " ++ context)) k) = false →
      similarityContentTypes.any
        (fun k => strContains (pyLower (content ++ " " ++ context)) k) = false →
      classifyContentType content context = "personal") := by
  refine ⟨fun h => ?_, fun h1 h2 => ?_, fun h1 h2 => ?_⟩ <;>
    simp [classifyContentType, *]

/-- C4 witness: `"funding advice"` (News and Personal keywords both
present) classifies News; `"my advice"` classifies Personal; keywordless
`"zzz"` defaults to Personal. -/
theorem classification_priority_witness :
    classifyContentType "funding advice" "" = "news" ∧
    classifyContentType "my advice" "" = "personal" ∧
    classifyContentType "zzz" "" = "personal" :=
  ⟨(classification_priority "funding advice" "").1 (by decide),
   (classification_priority "my advice" "").2.1 (by decide) (by decide),
   (classification_priority "zzz" "").2.2 (by decide) (by decide)⟩

/-- C8: loading never surfaces an error: an absent backing file yields
the freshly initialized store with all five collections empty, and an
unreadable or unparseable file falls back to the same empty store,
while a well-formed file loads as-is. -/
theorem load_fallback_empty :
    loadTrackerData .absent = emptyTrackerData ∧
    loadTrackerData .unreadable = emptyTrackerData ∧
    loadTrackerData .malformed = emptyTrackerData ∧
    (∀ d, loadTrackerData (.wellFormed d) = d) ∧
    emptyTrackerData.replied_tweets = [] ∧
    emptyTrackerData.used_rss_posts = [] ∧
    emptyTrackerData.email_content = [] ∧
    emptyTrackerData.posted_content = [] ∧
    emptyTrackerData.content_themes = [] :=
  ⟨rfl, rfl, rfl, fun _ => rfl, rfl, rfl, rfl, rfl, rfl⟩

/-- C10: the read-only queries never write the persisted store — each
leaves the `file` component untouched (their retention prune mutates
only the in-memory data), while a mark operation saves the mutated data
to the file. -/
theorem queries_readonly_file (now : Int) (pyHash : String → Int)
    (content content_type context tweet_id username theme : String)
    (timeframe_hours : Int) (s : TrackerState) :
    (hasPostedSimilarContent now content content_type context s).2.file = s.file ∧
    (hasGeneratedSimilarEmail now content content_type context s).2.file = s.file ∧
    (hasRepliedToTweet tweet_id s).2.file = s.file ∧
    (hasUsedRssPost pyHash now username content s).2.file = s.file ∧
    (hasUsedThemeRecently now theme timeframe_hours s).2.file = s.file ∧
    (getStatistics now s).2.file = s.file ∧
    (hasPostedSimilarContent now content content_type context s).2.data =
      cleanOldEntries now s.data ∧
    (markContentPosted now content content_type context s).file =
      some (markContentPosted now content content_type context s).data := by
  refine ⟨?_, ?_, rfl, rfl, ?_, rfl, ?_, rfl⟩
  · by_cases h1 : classifyContentType content context = "news" <;>
      cases h2 : ((cleanOldEntries now s.data).posted_content.map
        (fun item => item.content)).isEmpty <;>
      simp [hasPostedSimilarContent, h1, h2]
  · by_cases h1 : classifyContentType content context = "news" <;>
      cases h2 : ((cleanOldEntries now s.data).email_content.map
        (fun item => item.content)).isEmpty <;>
      simp [hasGeneratedSimilarEmail, h1, h2]
  · cases h : dictLookup (cleanOldEntries now s.data).content_themes theme <;>
      simp [hasUsedThemeRecently, h]
  · by_cases h1 : classifyContentType content context = "news" <;>
      cases h2 : ((cleanOldEntries now s.data).posted_content.map
        (fun item => item.content)).isEmpty <;>
      simp [hasPostedSimilarContent, h1, h2]

/-- C3 counterexample: `has_replied_to_tweet` does not prune.  A tweet
recorded 40 days before the current time (timestamp `0` against `now =
3456000`, well past the 30-day retention window) still answers `true`,
where the claim demands `false`. -/
theorem replied_no_prune_cex :
    repliedTweetsRetention < (3456000 : Int) - 0 ∧
    (hasRepliedToTweet "123"
      ⟨⟨[("123", ⟨"", 0⟩)], [], [], [], []⟩, none⟩).1 = true := by
  constructor
  · decide
  · rfl

/-- C3 amended: `has_replied_to_tweet` is a bare membership test on the
unpruned `replied_tweets` dict and performs no write, so a tweet
recorded more than 30 days ago still answers `true`; and when some
operation does run `_clean_old_entries`, the prune deletes every
`replied_tweets` entry regardless of age (the caught `TypeError` on the
`{reply_id, timestamp}` value dict), after which the query answers
`false` for every tweet id. -/
theorem replied_membership_unpruned (now : Int) (tweet_id : String) (s : TrackerState) :
    ((hasRepliedToTweet tweet_id s).1 = dictContains s.data.replied_tweets tweet_id) ∧
    ((hasRepliedToTweet tweet_id s).2 = s) ∧
    ((hasRepliedToTweet tweet_id { s with data := cleanOldEntries now s.data }).1 = false) :=
  ⟨rfl, rfl, rfl⟩

/-- C6: `has_used_theme_recently(theme, N)` answers `true` iff the
theme survives the 6-hour retention prune and strictly less than `N`
hours have elapsed since it was recorded; marking a theme makes an
immediate 1-hour query `true`, and the same query turns `false` once
more than one hour has passed, independently of the 6-hour retention. -/
theorem theme_cooldown_window (now now2 : Int) (theme : String) (timeframe_hours : Int)
    (s s2 : TrackerState) :
    ((hasUsedThemeRecently now theme timeframe_hours s).1 = true ↔
      ∃ ts, dictLookup (cleanOldEntries now s.data).content_themes theme = some ts ∧
        now - ts < timeframe_hours * 3600) ∧
    ((hasUsedThemeRecently now theme 1 (markThemeUsed now theme s2)).1 = true) ∧
    (3600 < now2 - now →
      (hasUsedThemeRecently now2 theme 1 (markThemeUsed now theme s2)).1 = false) := by
  have hthemes : ∀ nowq : Int,
      (cleanOldEntries nowq (markThemeUsed now theme s2).data).content_themes =
        (dictInsert theme now s2.data.content_themes).filter
          (fun kv => decide (nowq - contentThemesRetention ≤ kv.2)) := by
    intro nowq
    simp [markThemeUsed, saveTrackerData, cleanOldEntries]
  refine ⟨?_, ?_, fun hgap => ?_⟩
  · cases h : dictLookup (cleanOldEntries now s.data).content_themes theme with
    | none => simp [hasUsedThemeRecently, h]
    | some ts => simp [hasUsedThemeRecently, h]
  · have hlk : dictLookup
        ((cleanOldEntries now (markThemeUsed now theme s2).data).content_themes) theme =
        some now := by
      rw [hthemes now, dictLookup_filter_dictInsert]
      rw [if_pos (decide_eq_true (by unfold contentThemesRetention; omega))]
    simp only [hasUsedThemeRecently, hlk]
    simp
  · have hlk : dictLookup
        ((cleanOldEntries now2 (markThemeUsed now theme s2).data).content_themes) theme =
        if (decide (now2 - contentThemesRetention ≤ now)) = true then some now else none := by
      rw [hthemes now2, dictLookup_filter_dictInsert]
    by_cases hkeep : now2 - contentThemesRetention ≤ now
    · rw [if_pos (decide_eq_true hkeep)] at hlk
      simp only [hasUsedThemeRecently, hlk]
      simp only [one_mul]
      exact decide_eq_false (by omega)
    · rw [if_neg (by simpa using hkeep)] at hlk
      simp [hasUsedThemeRecently, hlk]

/-- C6 witness: marking `"ai"` at time 0 makes the 1-hour query `true`
immediately and `false` at time 3601. -/
theorem theme_cooldown_window_witness :
    (hasUsedThemeRecently 0 "ai" 1 (markThemeUsed 0 "ai" ⟨emptyTrackerData, none⟩)).1 = true ∧
    ((3600 : Int) < 3601 - 0 ∧
      (hasUsedThemeRecently 3601 "ai" 1 (markThemeUsed 0 "ai" ⟨emptyTrackerData, none⟩)).1 =
        false) :=
  ⟨(theme_cooldown_window 0 3601 "ai" 1 ⟨emptyTrackerData, none⟩ ⟨emptyTrackerData, none⟩).2.1,
   by decide,
   (theme_cooldown_window 0 3601 "ai" 1 ⟨emptyTrackerData, none⟩
      ⟨emptyTrackerData, none⟩).2.2 (by decide)⟩

theorem natDecimalRepr_no_colon (n : Nat) : ∀ ch ∈ natDecimalRepr n, ch ≠ ':' := by
  intro ch hch
  unfold natDecimalRepr at hch
  by_cases h : n = 0
  · rw [if_pos h] at hch
    simp only [List.mem_singleton] at hch
    subst hch
    decide
  · rw [if_neg h] at hch
    obtain ⟨d, hd, rfl⟩ := List.mem_map.mp hch
    have hd10 : d < 10 := Nat.digits_lt_base (by norm_num) (List.mem_reverse.mp hd)
    interval_cases d <;> decide

theorem colon_append_inj (a : List Char) : ∀ (b d1 d2 : List Char),
    (∀ ch ∈ d1, ch ≠ ':') → (∀ ch ∈ d2, ch ≠ ':') →
    a ++ ':' :: d1 = b ++ ':' :: d2 → a = b := by
  induction a with
  | nil =>
    intro b d1 d2 h1 h2 heq
    cases b with
    | nil => rfl
    | cons y ys =>
      simp only [List.nil_append, List.cons_append, List.cons.injEq] at heq
      obtain ⟨hy, heq⟩ := heq
      have : (':' : Char) ∈ d1 :=
        heq ▸ List.mem_append.mpr (Or.inr (List.mem_cons_self _ _))
      exact absurd rfl (h1 _ this)
  | cons x xs ih =>
    intro b d1 d2 h1 h2 heq
    cases b with
    | nil =>
      simp only [List.cons_append, List.nil_append, List.cons.injEq] at heq
      obtain ⟨hx, heq⟩ := heq
      have : (':' : Char) ∈ d2 :=
        heq.symm ▸ List.mem_append.mpr (Or.inr (List.mem_cons_self _ _))
      exact absurd rfl (h2 _ this)
    | cons y ys =>
      simp only [List.cons_append, List.cons.injEq] at heq
      obtain ⟨rfl, heq⟩ := heq
      rw [ih ys d1 d2 h1 h2 heq]

/-- C9: the RSS fingerprint is deterministic — marking an RSS post used
and immediately re-querying the same `(username, content)` pair answers
`true` — and username-injective: distinct usernames always yield
distinct fingerprints, whatever the contents, because the fingerprint
is the username, a `':'`, and a purely numeric bucket below 10 000 000. -/
theorem rss_fingerprint_det_inj (pyHash : String → Int) (now : Int)
    (username content : String) (s : TrackerState) (u1 u2 c1 c2 : String) :
    ((hasUsedRssPost pyHash now username content
        (markRssPostUsed pyHash now username content s)).1 = true) ∧
    (u1 ≠ u2 → rssFingerprint pyHash u1 c1 ≠ rssFingerprint pyHash u2 c2) := by
  constructor
  · have hrss : (cleanOldEntries now (markRssPostUsed pyHash now username content s).data).used_rss_posts =
        (dictInsert (rssFingerprint pyHash username content) now s.data.used_rss_posts).filter
          (fun kv => decide (now - usedRssPostsRetention ≤ kv.2)) := by
      simp [markRssPostUsed, saveTrackerData, cleanOldEntries]
    have hlk : dictLookup
        ((cleanOldEntries now (markRssPostUsed pyHash now username content s).data).used_rss_posts)
        (rssFingerprint pyHash username content) = some now := by
      rw [hrss, dictLookup_filter_dictInsert]
      rw [if_pos (decide_eq_true (by unfold usedRssPostsRetention; omega))]
    simp [hasUsedRssPost, dictContains, hlk]
  · intro hne heq
    apply hne
    apply String.ext
    have hdata := congrArg String.data heq
    unfold rssFingerprint decimalRepr at hdata
    rw [String.data_append, String.data_append, String.data_append, String.data_append]
      at hdata
    simp only [List.append_assoc, List.singleton_append] at hdata
    exact colon_append_inj u1.data u2.data _ _
      (natDecimalRepr_no_colon _) (natDecimalRepr_no_colon _) hdata

/-- C9 witness: a concrete hash function, mark-then-query answering
`true`, and distinct usernames yielding distinct fingerprints. -/
theorem rss_fingerprint_det_inj_witness :
    ((hasUsedRssPost (fun _ => 42) 0 "u" "c"
       (markRssPostUsed (fun _ => 42) 0 "u" "c" ⟨emptyTrackerData, none⟩)).1 = true) ∧
    ("alice" ≠ "bob") ∧
    rssFingerprint (fun _ => 42) "alice" "x" ≠ rssFingerprint (fun _ => 42) "bob" "y" :=
  ⟨(rss_fingerprint_det_inj (fun _ => 42) 0 "u" "c" ⟨emptyTrackerData, none⟩
      "alice" "bob" "x" "y").1,
   by decide,
   (rss_fingerprint_det_inj (fun _ => 42) 0 "u" "c" ⟨emptyTrackerData, none⟩
      "alice" "bob" "x" "y").2 (by decide)⟩

/-- C7: when the vectorizer fails — modelled by the corpus producing an
empty vocabulary after preprocessing, tokenization and stop-word
removal, the condition under which sklearn raises `ValueError` — the
error is absorbed locally: the similarity is `0.0` and the duplicate
check answers `false` instead of propagating an exception. -/
theorem vectorization_failure_graceful (now : Int) (content content_type context : String)
    (s : TrackerState)
    (hv : corpusVocab (postedSimilarityCorpus now content s) = []) :
    calculateSimilarity content
      ((cleanOldEntries now s.data).posted_content.map (fun item => item.content)) = 0 ∧
    (hasPostedSimilarContent now content content_type context s).1 = false :=
  ⟨calculateSimilarity_eq_zero_of_vocab_empty _ _ hv,
   hasPostedSimilarContent_false_of_vocab_empty now content content_type context s hv⟩

/-- C7 witness: checking `"the"` against a store holding `"of"` — both
all-stop-word texts, so the vocabulary is empty — yields similarity `0`
and a `false` duplicate verdict. -/
theorem vectorization_failure_graceful_witness :
    corpusVocab (postedSimilarityCorpus 0 "the"
      ⟨⟨[], [], [], [⟨"of", "personal", "", "", 0⟩], []⟩, none⟩) = [] ∧
    (hasPostedSimilarContent 0 "the" "" ""
      ⟨⟨[], [], [], [⟨"of", "personal", "", "", 0⟩], []⟩, none⟩).1 = false :=
  ⟨by decide,
   (vectorization_failure_graceful 0 "the" "" ""
      ⟨⟨[], [], [], [⟨"of", "personal", "", "", 0⟩], []⟩, none⟩ (by decide)).2⟩

/-- C5 counterexample: `"the"` classifies Personal and has the nonempty
preprocessed form `"the"`, yet marking it posted and immediately
re-checking answers `false`, not `true` as the claim states: the lone
token is an English stop word, the vectorizer sees an empty vocabulary,
and the caught failure yields similarity `0.0 < 0.15`. -/
theorem self_similarity_cex :
    classifyContentType "the" "" = "personal" ∧
    preprocessContent "the" ≠ "" ∧
    (hasPostedSimilarContent 0 "the" "" ""
      (markContentPosted 0 "the" "" "" ⟨emptyTrackerData, none⟩)).1 = false :=
  ⟨by decide, by decide,
   hasPostedSimilarContent_false_of_vocab_empty 0 "the" "" ""
     (markContentPosted 0 "the" "" "" ⟨emptyTrackerData, none⟩) (by decide)⟩

/-- C5 amended: for every text that classifies Personal and contributes
at least one TF-IDF feature to the fitted (1000-cap) vocabulary — i.e.
its preprocessed form has a token surviving stop-word removal and the
frequency cut — marking it posted and immediately re-checking the same
text answers `true`: the cosine similarity of the identical stored copy
is `1.0 > 0.15`. -/
theorem self_similarity_marked (now : Int) (content content_type context : String)
    (s : TrackerState)
    (hclass : classifyContentType content context = "personal")
    (hfeat : ∃ f, f ∈ docFeatures (preprocessContent content) ∧
        f ∈ corpusVocab (postedSimilarityCorpus now content
          (markContentPosted now content content_type context s))) :
    (hasPostedSimilarContent now content content_type context
      (markContentPosted now content content_type context s)).1 = true := by
  set s' := markContentPosted now content content_type context s with hs'
  have hentry : (⟨content, classifyContentType content context, content_type, context, now⟩ :
      ContentEntry) ∈ (cleanOldEntries now s'.data).posted_content := by
    simp only [hs', markContentPosted, saveTrackerData, cleanOldEntries]
    refine List.mem_filter.mpr
      ⟨List.mem_append.mpr (Or.inr (List.mem_singleton.mpr rfl)), ?_⟩
    refine decide_eq_true ?_
    show now - postedContentRetention ≤ now
    unfold postedContentRetention
    omega
  have hmem : content ∈ (cleanOldEntries now s'.data).posted_content.map
      (fun item => item.content) :=
    List.mem_map.mpr ⟨_, hentry, rfl⟩
  have hne : ((cleanOldEntries now s'.data).posted_content.map
      (fun item => item.content)).isEmpty = false := by
    cases hl : (cleanOldEntries now s'.data).posted_content.map
        (fun item => item.content) with
    | nil => rw [hl] at hmem; simp at hmem
    | cons a l => rfl
  have hsim : 1 ≤ calculateSimilarity content
      ((cleanOldEntries now s'.data).posted_content.map (fun item => item.content)) :=
    one_le_calculateSimilarity _ _ hmem hfeat
  have hnews : ¬ classifyContentType content context = "news" := by
    rw [hclass]; decide
  have hthr : ((similarityThreshold : ℚ) : ℝ) < 1 := by
    norm_num [similarityThreshold]
  simp only [hasPostedSimilarContent, if_neg hnews, hne, Bool.false_eq_true, if_false]
  exact decide_eq_true (by linarith)

/-- C5 amended witness: `"startup lessons matter"` classifies Personal
(keyword `lesson`), contributes the feature `"startup"` to the
vocabulary, and answers `true` immediately after being marked. -/
theorem self_similarity_marked_witness :
    classifyContentType "startup lessons matter" "" = "personal" ∧
    (∃ f, f ∈ docFeatures (preprocessContent "startup lessons matter") ∧
        f ∈ corpusVocab (postedSimilarityCorpus 0 "startup lessons matter"
          (markContentPosted 0 "startup lessons matter" "" "" ⟨emptyTrackerData, none⟩))) ∧
    (hasPostedSimilarContent 0 "startup lessons matter" "" ""
      (markContentPosted 0 "startup lessons matter" "" "" ⟨emptyTrackerData, none⟩)).1 =
      true :=
  ⟨by decide, by decide,
   self_similarity_marked 0 "startup lessons matter" "" "" ⟨emptyTrackerData, none⟩
     (by decide) (by decide)⟩

end ContentTracker
